import Mathlib

/-!
Verification of the DC-DC converter simulation (src/main.py).

The derivative models `buck`, `buck_boost` and `buck_boost_clamped` are
translated directly from src/main.py; Python float arithmetic is modelled
by exact rationals.  The `simulate` operation of the specification has no
counterpart under src/ (the reference entry point `main` delegates the
integration to an external ODE library), so the integrator boundary is
modelled from the specification where noted.
-/

namespace DCDC

/-- Buck converter derivative model, translated from `buck` in
src/main.py (lines 5-9). -/
def buck (x : ℚ × ℚ) (t : ℚ) (L R C Uav E : ℚ) : ℚ × ℚ :=
  let i := x.1
  let v := x.2
  let di_dt := E * Uav / L - v / L
  let dv_dt := i / C - v / R / C
  (di_dt, dv_dt)

/-- Buck-boost converter derivative model, translated from `buck_boost`
in src/main.py (lines 12-16). -/
def buck_boost (x : ℚ × ℚ) (t : ℚ) (L R C Uav E : ℚ) : ℚ × ℚ :=
  let i := x.1
  let v := x.2
  let di_dt := (E * Uav / L) + (1 - Uav) * v / L
  let dv_dt := - (1 - Uav) * i / C - v / (R * C)
  (di_dt, dv_dt)

/-- Buck-boost derivative model with non-negative current enforcement,
translated from `buck_boost_clamped` in src/main.py (lines 20-34):
the raw di/dt is computed from the unclamped current, dv/dt uses the
effective current max(i, 0), and di/dt is forced to zero when the
current is at or below zero and the raw derivative is negative. -/
def buck_boost_clamped (x : ℚ × ℚ) (t : ℚ) (L R C Uav E : ℚ) : ℚ × ℚ :=
  let i := x.1
  let v := x.2
  let di_dt := (E * Uav) / L + (1 - Uav) * v / L
  let i_eff := max i 0
  let dv_dt := - (1 - Uav) * i_eff / C - v / (R * C)
  let di_dt_out := if i ≤ 0 ∧ di_dt < 0 then 0 else di_dt
  (di_dt_out, dv_dt)

/-- Topology selector for the three derivative-model variants
(section 6 of the specification). -/
inductive Topology where
  | buck
  | buck_boost
  | buck_boost_clamped
deriving DecidableEq

/-- Failure taxonomy of `simulate` (section 7 of the specification). -/
inductive SimError where
  | InvalidParameters
  | InvalidTimeGrid
  | NumericalFailure
deriving DecidableEq

/-- Dispatch from a topology to its derivative model of src/main.py. -/
def derivOf : Topology → (ℚ × ℚ) → ℚ → ℚ → ℚ → ℚ → ℚ → ℚ → ℚ × ℚ
  | .buck => buck
  | .buck_boost => buck_boost
  | .buck_boost_clamped => buck_boost_clamped

/-- Modelled from the spec: the Integrator of section 4.2 is missing
from src/ (the reference entry point delegates to an external ODE
library); the specification permits any fixed-step method, so one
explicit-Euler step advances the state from time t over a step h. -/
def eulerStep (f : (ℚ × ℚ) → ℚ → ℚ → ℚ → ℚ → ℚ → ℚ → ℚ × ℚ)
    (x : ℚ × ℚ) (t h L R C Uav E : ℚ) : ℚ × ℚ :=
  let d := f x t L R C Uav E
  (x.1 + h * d.1, x.2 + h * d.2)

/-- Modelled from the spec: march the state from time t through the
remaining grid times, recording the state at the current time first,
so that the output starts with the state at t and has one entry per
visited time. -/
def marchFrom (f : (ℚ × ℚ) → ℚ → ℚ → ℚ → ℚ → ℚ → ℚ → ℚ × ℚ)
    (L R C Uav E : ℚ) : (ℚ × ℚ) → ℚ → List ℚ → List (ℚ × ℚ)
  | x, _, [] => [x]
  | x, t, t2 :: rest =>
      x :: marchFrom f L R C Uav E (eulerStep f x t (t2 - t) L R C Uav E) t2 rest

/-- Modelled from the spec: integrate the selected derivative model
over the time grid, producing one state per grid point with the first
entry equal to the initial state. -/
def integrate (f : (ℚ × ℚ) → ℚ → ℚ → ℚ → ℚ → ℚ → ℚ → ℚ × ℚ)
    (x0 : ℚ × ℚ) (grid : List ℚ) (L R C Uav E : ℚ) : List (ℚ × ℚ) :=
  match grid with
  | [] => []
  | t0 :: rest => marchFrom f L R C Uav E x0 t0 rest

/-- Modelled from the spec: the `simulate` boundary of section 6 with
the error taxonomy of section 7 is missing from src/; it rejects
non-positive L, R or C before any integration work, rejects a grid
with fewer than two points or one that is not strictly increasing, and
otherwise returns the integrated trajectory. -/
def simulate (topo : Topology) (x0 : ℚ × ℚ) (grid : List ℚ)
    (L R C Uav E : ℚ) : Except SimError (List (ℚ × ℚ)) :=
  if L ≤ 0 ∨ R ≤ 0 ∨ C ≤ 0 then .error .InvalidParameters
  else if grid.length < 2 ∨ ¬ List.Chain' (fun a b => a < b) grid then
    .error .InvalidTimeGrid
  else .ok (integrate (derivOf topo) x0 grid L R C Uav E)

/-- The march produces one state per visited time plus the starting
state. -/
theorem marchFrom_length (f : (ℚ × ℚ) → ℚ → ℚ → ℚ → ℚ → ℚ → ℚ → ℚ × ℚ)
    (L R C Uav E : ℚ) (x : ℚ × ℚ) (t : ℚ) (ts : List ℚ) :
    (marchFrom f L R C Uav E x t ts).length = ts.length + 1 := by
  induction ts generalizing x t with
  | nil => rfl
  | cons t2 rest ih => simp [marchFrom, ih]

/-- The march starts with the starting state. -/
theorem marchFrom_head (f : (ℚ × ℚ) → ℚ → ℚ → ℚ → ℚ → ℚ → ℚ → ℚ × ℚ)
    (L R C Uav E : ℚ) (x : ℚ × ℚ) (t : ℚ) (ts : List ℚ) :
    (marchFrom f L R C Uav E x t ts).head? = some x := by
  cases ts <;> rfl

/-- C1: `buck_boost_clamped` first computes di/dt from the unclamped
current as (E*Uav)/L + (1-Uav)*v/L, and forces the returned di/dt to 0
exactly when i ≤ 0 and that computed value is strictly negative; in
every other case (in particular i ≤ 0 with a non-negative computed
value) the computed di/dt is returned unmodified. -/
theorem buck_boost_clamped_di_dt_clamp (i v t L R C Uav E : ℚ) :
    (buck_boost_clamped (i, v) t L R C Uav E).1 =
      if i ≤ 0 ∧ (E * Uav) / L + (1 - Uav) * v / L < 0 then 0
      else (E * Uav) / L + (1 - Uav) * v / L := rfl

/-- C2: `buck_boost_clamped` substitutes the effective current
max(i, 0) for i only in the dv/dt equation, for every i regardless of
sign, while the di/dt equation is computed from the original unclamped
current. -/
theorem buck_boost_clamped_i_eff (i v t L R C Uav E : ℚ) :
    (buck_boost_clamped (i, v) t L R C Uav E).2 =
      - (1 - Uav) * max i 0 / C - v / (R * C) ∧
    (buck_boost_clamped (i, v) t L R C Uav E).1 =
      (if i ≤ 0 ∧ (E * Uav) / L + (1 - Uav) * v / L < 0 then 0
       else (E * Uav) / L + (1 - Uav) * v / L) :=
  ⟨rfl, rfl⟩

/-- C3: for nonzero L, R, C the buck model returns exactly
(E*Uav/L - v/L, i/C - v/(R*C)); in particular at state (1, 2), t = 0,
L = 1/1000, R = 47, C = 1/20000, Uav = 1/2, E = 12 it returns
di/dt = 4000 and dv/dt = 20000 - 2/(47 * (1/20000)). -/
theorem buck_formula (i v t L R C Uav E : ℚ)
    (hL : L ≠ 0) (hR : R ≠ 0) (hC : C ≠ 0) :
    buck (i, v) t L R C Uav E = (E * Uav / L - v / L, i / C - v / (R * C)) ∧
    buck (1, 2) 0 (1 / 1000) 47 (1 / 20000) (1 / 2) 12 =
      (4000, 20000 - 2 / (47 * (1 / 20000))) := by
  refine ⟨?_, by norm_num [buck]⟩
  simp [buck, div_div]

/-- Witness for C3 at the regression point of the specification. -/
theorem buck_formula_witness :
    buck (1, 2) 0 (1 / 1000) 47 (1 / 20000) (1 / 2) 12 =
      (4000, 20000 - 2 / (47 * (1 / 20000))) :=
  (buck_formula 1 2 0 (1 / 1000) 47 (1 / 20000) (1 / 2) 12
    (by norm_num) (by norm_num) (by norm_num)).2

/-- C4: for nonzero L, R, C the buck-boost model returns exactly
(E*Uav/L + (1-Uav)*v/L, -(1-Uav)*i/C - v/(R*C)). -/
theorem buck_boost_formula (i v t L R C Uav E : ℚ)
    (hL : L ≠ 0) (hR : R ≠ 0) (hC : C ≠ 0) :
    buck_boost (i, v) t L R C Uav E =
      ((E * Uav / L) + (1 - Uav) * v / L, - (1 - Uav) * i / C - v / (R * C)) :=
  rfl

/-- Witness for C4 at a concrete valid parameter set. -/
theorem buck_boost_formula_witness :
    buck_boost (1, 2) 0 (1 / 1000) 47 (1 / 20000) (1 / 2) 12 =
      (((12 : ℚ) * (1 / 2) / (1 / 1000)) + (1 - 1 / 2) * 2 / (1 / 1000),
       - (1 - 1 / 2) * 1 / (1 / 20000) - 2 / (47 * (1 / 20000))) :=
  buck_boost_formula 1 2 0 (1 / 1000) 47 (1 / 20000) (1 / 2) 12
    (by norm_num) (by norm_num) (by norm_num)

/-- C9: at or below zero current, the di/dt component returned by
`buck_boost_clamped` is non-negative: a negative raw derivative is
zeroed by the clamp and any other raw derivative is already
non-negative. -/
theorem buck_boost_clamped_di_dt_nonneg (i v t L R C Uav E : ℚ)
    (hi : i ≤ 0) (hL : L ≠ 0) :
    0 ≤ (buck_boost_clamped (i, v) t L R C Uav E).1 := by
  rw [buck_boost_clamped_di_dt_clamp]
  split
  · exact le_refl 0
  · next h =>
      rcases not_and_or.mp h with h1 | h2
      · exact absurd hi h1
      · exact le_of_not_lt h2

/-- Witness for C9 at zero current with zero source voltage. -/
theorem buck_boost_clamped_di_dt_nonneg_witness :
    0 ≤ (buck_boost_clamped (0, 0) 0 1 1 1 (1 / 2) 0).1 :=
  buck_boost_clamped_di_dt_nonneg 0 0 0 1 1 1 (1 / 2) 0
    (le_refl 0) (by norm_num)

/-- C10: on strictly positive current the clamped variant coincides
with the unclamped buck-boost model: the clamp branch is not taken and
the effective current equals i. -/
theorem buck_boost_clamped_eq_on_pos (i v t L R C Uav E : ℚ)
    (hi : 0 < i) (hL : L ≠ 0) (hR : R ≠ 0) (hC : C ≠ 0) :
    buck_boost_clamped (i, v) t L R C Uav E = buck_boost (i, v) t L R C Uav E := by
  have h1 : ¬ i ≤ 0 := not_le.mpr hi
  have h2 : max i 0 = i := max_eq_left hi.le
  simp [buck_boost_clamped, buck_boost, h1, h2]

/-- Witness for C10 at unit current. -/
theorem buck_boost_clamped_eq_on_pos_witness :
    buck_boost_clamped (1, 2) 0 1 1 1 (1 / 2) 12 =
      buck_boost (1, 2) 0 1 1 1 (1 / 2) 12 :=
  buck_boost_clamped_eq_on_pos 1 2 0 1 1 1 (1 / 2) 12
    (by norm_num) (by norm_num) (by norm_num) (by norm_num)

/-- C5: for every topology variant and any zero or negative L, R or C,
`simulate` fails with InvalidParameters before any integration work. -/
theorem simulate_rejects_invalid_params (topo : Topology) (x0 : ℚ × ℚ)
    (grid : List ℚ) (L R C Uav E : ℚ) (h : L ≤ 0 ∨ R ≤ 0 ∨ C ≤ 0) :
    simulate topo x0 grid L R C Uav E = .error .InvalidParameters := by
  unfold simulate
  rw [if_pos h]

/-- Witness for C5 with L = 0 on the buck topology. -/
theorem simulate_rejects_invalid_params_witness :
    simulate .buck (0, 0) [0, 1] 0 47 1 (1 / 2) 12 =
      .error .InvalidParameters :=
  simulate_rejects_invalid_params .buck (0, 0) [0, 1] 0 47 1 (1 / 2) 12
    (Or.inl (le_refl 0))

/-- C6: every successful run of `simulate` returns a trajectory of
exactly the same length as the time grid, whose first element is the
supplied initial state. -/
theorem simulate_ok_length_and_head (topo : Topology) (x0 : ℚ × ℚ)
    (grid : List ℚ) (L R C Uav E : ℚ) (traj : List (ℚ × ℚ))
    (h : simulate topo x0 grid L R C Uav E = .ok traj) :
    traj.length = grid.length ∧ traj.head? = some x0 := by
  unfold simulate at h
  split at h
  · exact absurd h (by simp)
  · split at h
    · exact absurd h (by simp)
    · next hgrid =>
        have htraj : integrate (derivOf topo) x0 grid L R C Uav E = traj :=
          Except.ok.inj h
        have hlen : 2 ≤ grid.length := by
          rcases not_or.mp hgrid with ⟨h1, _⟩
          exact le_of_not_lt h1
        match grid, hlen with
        | t0 :: rest, _ =>
            subst htraj
            exact ⟨marchFrom_length .., marchFrom_head ..⟩

/-- Witness for C6 on a two-point grid with the buck topology. -/
theorem simulate_ok_length_and_head_witness :
    ([((0 : ℚ), (0 : ℚ)), (6, 0)] : List (ℚ × ℚ)).length =
        ([0, 1] : List ℚ).length ∧
      ([((0 : ℚ), (0 : ℚ)), (6, 0)] : List (ℚ × ℚ)).head? = some (0, 0) :=
  simulate_ok_length_and_head .buck (0, 0) [0, 1] 1 1 1 (1 / 2) 12
    [(0, 0), (6, 0)]
    (by norm_num [simulate, integrate, marchFrom, eulerStep, derivOf, buck])

/-- C8: `simulate` is deterministic: two calls with identical topology,
initial state, time grid and parameters yield identical trajectories;
the derivative models and the integrator are pure functions of their
arguments. -/
theorem simulate_deterministic (topo topo2 : Topology) (x0 x02 : ℚ × ℚ)
    (grid grid2 : List ℚ) (L R C Uav E L2 R2 C2 Uav2 E2 : ℚ)
    (ht : topo = topo2) (hx : x0 = x02) (hg : grid = grid2) (hL : L = L2)
    (hR : R = R2) (hC : C = C2) (hU : Uav = Uav2) (hE : E = E2) :
    simulate topo x0 grid L R C Uav E = simulate topo2 x02 grid2 L2 R2 C2 Uav2 E2 := by
  subst ht hx hg hL hR hC hU hE
  rfl

/-- Witness for C8 on a concrete repeated call. -/
theorem simulate_deterministic_witness :
    simulate .buck_boost_clamped (0, 0) [0, 1] 1 47 1 (1 / 2) 12 =
      simulate .buck_boost_clamped (0, 0) [0, 1] 1 47 1 (1 / 2) 12 :=
  simulate_deterministic .buck_boost_clamped .buck_boost_clamped (0, 0) (0, 0)
    [0, 1] [0, 1] 1 47 1 (1 / 2) 12 1 47 1 (1 / 2) 12
    rfl rfl rfl rfl rfl rfl rfl rfl

end DCDC
